import Mathlib

/-!
Shallow embedding of the data-maturity survey application (src/main.py).

The application is a single-page survey: a static catalog of seven
questions (`survey_questions`), a per-session state consisting of the
list of collected responses and a step cursor, an advance handler
(the "Next" button), a result computation (pandas groupby per domain,
total score, and an if/elif tier classification), a start-survey
handler that appends a partial intake row, and a "Request Workshop"
handler that appends a completion row and sends a notification.

External collaborators (the Google-Sheets client and the Mailjet HTTP
call) are modelled by their observable effects: rows appended, mail
arguments sent, UI messages displayed, and exceptions propagated.
-/

/-- A survey question as in the `survey_questions` list of dicts:
a domain label, a prompt, and an ordered list of (label, score) options. -/
structure Question where
  domain : String
  question : String
  options : List (String × Int)
deriving DecidableEq, Repr

/-- The static catalog `survey_questions` from src/main.py, transcribed verbatim. -/
def survey_questions : List Question :=
  [ { domain := "Strategy & Leadership",
      question := "Does your organisation have a documented, reviewed data strategy?",
      options :=
        [ ("No strategy at all", 1),
          ("Informal ideas but nothing documented", 2),
          ("A documented strategy exists but isn’t well used", 3),
          ("We have a clear, reviewed data strategy aligned to business goals", 4) ] },
    { domain := "People & Skills",
      question := "How would you rate your team’s data literacy and confidence?",
      options :=
        [ ("Most people are uncomfortable with data", 1),
          ("Some people are learning, but skills are patchy", 2),
          ("Teams can interpret dashboards, but not build them", 3),
          ("Teams are confident using data tools and making decisions", 4) ] },
    { domain := "Tools & Infrastructure",
      question := "What best describes your data infrastructure?",
      options :=
        [ ("Data is stored in spreadsheets and scattered systems", 1),
          ("We have some cloud tools but no integration", 2),
          ("We use a centralised data platform (e.g. data warehouse)", 3),
          ("Our tools are integrated, scalable, and automated", 4) ] },
    { domain := "Governance & Compliance",
      question := "How do you manage data access, quality, and compliance?",
      options :=
        [ ("No formal policies", 1),
          ("Some access rules, but not enforced", 2),
          ("Defined ownership and some monitoring", 3),
          ("Strong governance with audits, monitoring, and training", 4) ] },
    { domain := "Culture & Adoption",
      question := "How ingrained is data-driven thinking in your organisation?",
      options :=
        [ ("Gut feel drives most decisions", 1),
          ("Some teams use data occasionally", 2),
          ("Data informs key decisions across functions", 3),
          ("Data is the foundation for strategy and daily ops", 4) ] },
    { domain := "Measurement & Performance",
      question := "How do you measure and communicate business performance?",
      options :=
        [ ("Little or no tracking", 1),
          ("Basic dashboards/reports", 2),
          ("Regular reporting but not action-oriented", 3),
          ("Clear KPIs tracked in real time and discussed weekly", 4) ] },
    { domain := "Innovation Readiness",
      question := "Are you leveraging AI, automation, or predictive analytics?",
      options :=
        [ ("Not at all", 1),
          ("It\x27s on our radar", 2),
          ("We’re running experiments", 3),
          ("We actively use smart tools for decision support", 4) ] } ]

/-- One collected response, as appended to `st.session_state.responses`:
the current question's domain and prompt, the chosen label, and its score. -/
structure Answer where
  domain : String
  question : String
  answer : String
  score : Int
deriving DecidableEq, Repr

/-- The mutable per-session survey state: `st.session_state.responses`
and `st.session_state.step`. -/
structure SessionState where
  responses : List Answer
  step : Nat
deriving DecidableEq, Repr

/-- The initial session state (`responses = []`, `step = 0`). -/
def initialSession : SessionState := { responses := [], step := 0 }

/-- The error kinds a transition can signal (spec section 7). In the code an
invalid selection surfaces as the KeyError of `dict(q["options"])[selected]`
and incomplete identity as the validation `st.error` branch. -/
inductive SurveyError where
  | invalidSelection
  | notInProgress
  | incompleteIdentity
deriving DecidableEq, Repr

/-- Python `dict(pairs)[k]`: build a dict from the association list (later
pairs override earlier ones) and look up `k`; `none` models the KeyError. -/
def dictLookup : List (String × Int) → String → Option Int
  | [], _ => none
  | (l, s) :: rest, k =>
    match dictLookup rest k with
    | some v => some v
    | none => if l = k then some s else none

/-- The "Next"-button handler: guarded by `step < len(survey_questions)`,
it looks the chosen label up in the current question's option dict
(KeyError, modelled as `invalidSelection`, when absent), appends the
Answer built from the question's domain/prompt, the label and its score,
and increments `step`. On error the session state is untouched. -/
def handleNext (st : SessionState) (selected : String) :
    SessionState × Option SurveyError :=
  match survey_questions[st.step]? with
  | none => (st, some SurveyError.notInProgress)
  | some q =>
    match dictLookup q.options selected with
    | none => (st, some SurveyError.invalidSelection)
    | some v =>
      ({ responses := st.responses ++ [⟨q.domain, q.question, selected, v⟩],
         step := st.step + 1 }, none)

/-- Run a sequence of selections through the advance handler, stopping at
the first error (in the app the uncaught KeyError aborts the rerun). -/
def runSelections : SessionState → List String → Except SurveyError SessionState
  | st, [] => Except.ok st
  | st, s :: rest =>
    match handleNext st s with
    | (st', none) => runSelections st' rest
    | (_, some e) => Except.error e

/-- `total_score`: `int(df["score"].sum())`, the sum of all response scores. -/
def total_score (rs : List Answer) : Int := (rs.map (fun r => r.score)).sum

/-- The per-domain subtotal that `df.groupby("domain")["score"].sum()`
assigns to domain `d`: the sum of the scores of the responses whose
domain equals `d`. -/
def domainScore (rs : List Answer) (d : String) : Int :=
  ((rs.filter (fun r => r.domain = d)).map (fun r => r.score)).sum

/-- `domain_scores`: one (domain, subtotal) pair per distinct domain
occurring in the responses (pandas sorts the group keys; the key order is
irrelevant to every property proved here). -/
def domain_scores (rs : List Answer) : List (String × Int) :=
  ((rs.map (fun r => r.domain)).dedup).map (fun d => (d, domainScore rs d))

/-- The fixed recommendation text of the Early Stage tier. -/
def earlyRecommendation : String :=
  "Your business is in the early stages of using data to make decisions. Start by auditing your existing data sources and create a simple, actionable data strategy. We recommend beginning with high-impact areas like performance tracking and customer insights."

/-- The fixed recommendation text of the Foundational tier. -/
def foundationalRecommendation : String :=
  "You’re building a solid foundation. Focus on aligning your data strategy with business goals, and invest in reliable dashboards that give visibility into performance and customer behaviour."

/-- The fixed recommendation text of the Emerging Leader tier. -/
def emergingRecommendation : String :=
  "You’re on your way to becoming a data-led business. Consider consolidating customer data, enhancing marketing measurement, and testing AI-powered tools to scale faster."

/-- The fixed recommendation text of the Data-Driven Pro tier. -/
def proRecommendation : String :=
  "Your business is already leveraging data effectively. Now’s the time to explore advanced automation, predictive analytics, and custom AI solutions that give you a competitive edge."

/-- The tier classification if/elif/else chain over `total_score`, producing
the (tier, recommendation) pair exactly as the code assigns both variables. -/
def classify (total : Int) : String × String :=
  if total ≤ 8 then ("📉 Early Stage", earlyRecommendation)
  else if total ≤ 13 then ("🔧 Foundational", foundationalRecommendation)
  else if total ≤ 17 then ("📈 Emerging Leader", emergingRecommendation)
  else ("🚀 Data-Driven Pro", proRecommendation)

/-- The tier component alone. -/
def classifyTier (total : Int) : String := (classify total).1

/-- The score the catalog pairs with label `s` at question index `k`
(0 when out of range or absent; only used on in-range, valid inputs). -/
def scoreAt (k : Nat) (s : String) : Int :=
  match survey_questions[k]? with
  | none => 0
  | some q => (dictLookup q.options s).getD 0

/-- The sum of the catalog scores paired with a selection sequence that
starts at question index `k`. -/
def chosenSum : Nat → List String → Int
  | _, [] => 0
  | k, s :: rest => scoreAt k s + chosenSum (k + 1) rest

/-- The answers the advance handler builds for a selection sequence starting
at question index `k` (skipping out-of-range indices, which never occur on a
successful run). -/
def answersFrom : Nat → List String → List Answer
  | _, [] => []
  | k, s :: rest =>
    (match survey_questions[k]? with
     | none => []
     | some q => [⟨q.domain, q.question, s, (dictLookup q.options s).getD 0⟩]) ++
    answersFrom (k + 1) rest

/-- Whether label `s` is a valid option of the question at catalog index `k`. -/
def validAt (k : Nat) (s : String) : Bool :=
  match survey_questions[k]? with
  | none => false
  | some q => (dictLookup q.options s).isSome

/-- A spreadsheet cell: the rows the app appends mix strings and integers. -/
inductive Cell where
  | str (s : String)
  | int (n : Int)
deriving DecidableEq, Repr

/-- A message surface: `st.success`, `st.error`, `st.warning`. -/
inductive UiMessage where
  | success (s : String)
  | error (s : String)
  | warning (s : String)
deriving DecidableEq, Repr

/-- The outcome of a `sheet.append_row` call: gspread either succeeds or
raises an exception carrying a message. -/
inductive StorageResult where
  | ok
  | failure (msg : String)
deriving DecidableEq, Repr

/-- The arguments `send_mailjet_email(name, email, score, tier)` is invoked with. -/
structure MailArgs where
  name : String
  email : String
  score : Int
  tier : String
deriving DecidableEq, Repr

/-- Observable outcome of the "Request Workshop" handler: the session state
it leaves behind, the UI messages displayed, the rows appended to the sheet,
the notification calls issued, and any exception propagated uncaught. -/
structure FollowUpResult where
  state : SessionState
  messages : List UiMessage
  appendedRows : List (List Cell)
  sentMails : List MailArgs
  uncaught : Option String
deriving DecidableEq, Repr

/-- The `for r in responses: row.append(question); row.append(answer)` loop. -/
def answerCells : List Answer → List Cell
  | [] => []
  | r :: rest => Cell.str r.question :: Cell.str r.answer :: answerCells rest

/-- The completion row: identity fields, total score, tier, then the
(prompt, chosen label) pairs of the responses in order. -/
def completionRow (name email industry turnover : String) (total : Int)
    (tier : String) (rs : List Answer) : List Cell :=
  [Cell.str name, Cell.str email, Cell.str industry, Cell.str turnover,
   Cell.int total, Cell.str tier] ++ answerCells rs

/-- `send_mailjet_email`'s user-visible outcome: the code checks the HTTP
status code and shows `st.success` on 200 and `st.error` otherwise. -/
def send_mailjet_email (mailStatus : Nat) (mailText : String) : List UiMessage :=
  if mailStatus = 200 then
    [UiMessage.success "📬 Email notification sent to Sidekick Media!"]
  else
    [UiMessage.error ("❌ Mailjet error: " ++ toString mailStatus ++ " - " ++ mailText)]

/-- The "Request Workshop" handler. It checks `if name and email:` (Python
truthiness: both non-empty) — industry and turnover are not re-checked. On
success it shows `st.success`, appends the completion row, then calls
`send_mailjet_email`; there is no try/except, so a storage exception
propagates out of the handler before the notification is attempted.
Otherwise it shows the validation `st.error` and performs no collaborator
call. The handler never writes `responses` or `step`, so the session state
passes through unchanged. -/
def request_workshop (st : SessionState) (name email industry turnover : String)
    (total : Int) (tier : String) (storage : StorageResult)
    (mailStatus : Nat) (mailText : String) : FollowUpResult :=
  if name ≠ "" ∧ email ≠ "" then
    match storage with
    | StorageResult.failure msg =>
      { state := st,
        messages := [UiMessage.success "✅ Thanks! We\x27ll reach out to you shortly."],
        appendedRows := [],
        sentMails := [],
        uncaught := some msg }
    | StorageResult.ok =>
      { state := st,
        messages := UiMessage.success "✅ Thanks! We\x27ll reach out to you shortly." ::
          send_mailjet_email mailStatus mailText,
        appendedRows := [completionRow name email industry turnover total tier st.responses],
        sentMails := [⟨name, email, total, tier⟩],
        uncaught := none }
  else
    { state := st,
      messages := [UiMessage.error "Please enter your name and email."],
      appendedRows := [],
      sentMails := [],
      uncaught := none }

/-- The "Start Survey" handler: the button only fires when
`all([name, email, industry, turnover])` holds (all four non-empty) and the
respondent confirms; it then sets `started` and appends the partial intake
row with empty score and tier placeholders. With incomplete fields it shows
the `st.warning` instead. Result: (new `started` flag, rows appended,
messages shown). -/
def startSurvey (name email industry turnover : String) (confirm : Bool) :
    Bool × List (List Cell) × List UiMessage :=
  if name ≠ "" ∧ email ≠ "" ∧ industry ≠ "" ∧ turnover ≠ "" then
    if confirm then
      (true,
       [[Cell.str name, Cell.str email, Cell.str industry, Cell.str turnover,
         Cell.str "", Cell.str ""]],
       [])
    else (false, [], [])
  else (false, [], [UiMessage.warning "Please complete all fields to begin."])

/-- A concrete full selection sequence: the first option of every question. -/
def demoSelections : List String :=
  ["No strategy at all",
   "Most people are uncomfortable with data",
   "Data is stored in spreadsheets and scattered systems",
   "No formal policies",
   "Gut feel drives most decisions",
   "Little or no tracking",
   "Not at all"]

/-- The answers the advance handler collects on the `demoSelections` run. -/
def demoAnswers : List Answer := answersFrom 0 demoSelections

/-- C1: over the reachable range of totals, each tier holds exactly on its
band: `≤ 8` Early Stage, `9..13` Foundational, `14..17` Emerging Leader,
`≥ 18` Data-Driven Pro; boundary values fall in the lower band, and the
iffs make the bands gap-free and overlap-free on `[7, 28]`. -/
theorem tier_bands_partition (t : Int) (h7 : 7 ≤ t) (h28 : t ≤ 28) :
    (classifyTier t = "📉 Early Stage" ↔ t ≤ 8) ∧
    (classifyTier t = "🔧 Foundational" ↔ 9 ≤ t ∧ t ≤ 13) ∧
    (classifyTier t = "📈 Emerging Leader" ↔ 14 ≤ t ∧ t ≤ 17) ∧
    (classifyTier t = "🚀 Data-Driven Pro" ↔ 18 ≤ t) := by
  unfold classifyTier classify
  split_ifs with h1 h2 h3 <;> simp +decide <;> omega

/-- Witness for `tier_bands_partition` at the boundary totals 8, 9, 13, 14. -/
theorem tier_bands_partition_witness :
    classifyTier 8 = "📉 Early Stage" ∧ classifyTier 9 = "🔧 Foundational" ∧
    classifyTier 13 = "🔧 Foundational" ∧ classifyTier 14 = "📈 Emerging Leader" :=
  ⟨(tier_bands_partition 8 (by decide) (by decide)).1.mpr (by decide),
   (tier_bands_partition 9 (by decide) (by decide)).2.1.mpr (by decide),
   (tier_bands_partition 13 (by decide) (by decide)).2.1.mpr (by decide),
   (tier_bands_partition 14 (by decide) (by decide)).2.2.1.mpr (by decide)⟩

/-- C10: the classification chain is total over all integers: totals below 7
still hit the `≤ 8` branch, totals above 28 hit the `else` branch, and every
total lands on exactly one of the four fixed (tier, recommendation) pairs. -/
theorem classify_total_function (t : Int) :
    ((t < 7 → classify t = ("📉 Early Stage", earlyRecommendation)) ∧
     (28 < t → classify t = ("🚀 Data-Driven Pro", proRecommendation))) ∧
    (classify t = ("📉 Early Stage", earlyRecommendation) ∨
     classify t = ("🔧 Foundational", foundationalRecommendation) ∨
     classify t = ("📈 Emerging Leader", emergingRecommendation) ∨
     classify t = ("🚀 Data-Driven Pro", proRecommendation)) := by
  unfold classify
  split_ifs with h1 h2 h3
  · exact ⟨⟨fun _ => rfl, fun h => absurd h (by omega)⟩, Or.inl rfl⟩
  · exact ⟨⟨fun h => absurd h (by omega), fun h => absurd h (by omega)⟩, Or.inr (Or.inl rfl)⟩
  · exact ⟨⟨fun h => absurd h (by omega), fun h => absurd h (by omega)⟩, Or.inr (Or.inr (Or.inl rfl))⟩
  · exact ⟨⟨fun h => absurd h (by omega), fun _ => rfl⟩, Or.inr (Or.inr (Or.inr rfl))⟩

/-- Witness for `classify_total_function` at the out-of-range totals 3 and 100. -/
theorem classify_total_function_witness :
    classify 3 = ("📉 Early Stage", earlyRecommendation) ∧
    classify 100 = ("🚀 Data-Driven Pro", proRecommendation) :=
  ⟨(classify_total_function 3).1.1 (by decide),
   (classify_total_function 100).1.2 (by decide)⟩

/-- Summing a pointwise sum of two functions over a key list splits. -/
lemma sum_map_add_fun (ks : List String) (f g : String → Int) :
    (ks.map (fun d => f d + g d)).sum = (ks.map f).sum + (ks.map g).sum := by
  induction ks with
  | nil => simp
  | cons k ks ih =>
    simp only [List.map_cons, List.sum_cons, ih]
    ring

/-- A key absent from the list contributes nothing. -/
lemma sum_map_ite_zero (ks : List String) (d : String) (v : Int) (hd : d ∉ ks) :
    (ks.map (fun k => if d = k then v else 0)).sum = 0 := by
  induction ks with
  | nil => simp
  | cons k ks ih =>
    simp only [List.mem_cons, not_or] at hd
    simp [hd.1, ih hd.2]

/-- Over a duplicate-free key list containing `d`, the indicator sum is `v`. -/
lemma sum_map_ite_single (ks : List String) (d : String) (v : Int)
    (hnd : ks.Nodup) (hd : d ∈ ks) :
    (ks.map (fun k => if d = k then v else 0)).sum = v := by
  induction ks with
  | nil => cases hd
  | cons k ks ih =>
    rcases List.nodup_cons.mp hnd with ⟨hk, hnd'⟩
    rcases List.mem_cons.mp hd with h | h
    · subst h
      simp [sum_map_ite_zero ks d v hk]
    · have hne : d ≠ k := fun e => hk (e ▸ h)
      simp [hne, ih hnd' h]

/-- Prepending a response adds its score to exactly its own domain's subtotal. -/
lemma domainScore_cons (a : Answer) (rs : List Answer) (d : String) :
    domainScore (a :: rs) d = (if a.domain = d then a.score else 0) + domainScore rs d := by
  by_cases h : a.domain = d <;> simp [domainScore, List.filter_cons, h]

/-- Over any duplicate-free key list covering all response domains, the
per-domain subtotals sum to the total score. -/
lemma grouped_sum (ks : List String) (rs : List Answer) (hnd : ks.Nodup)
    (hcov : ∀ a ∈ rs, a.domain ∈ ks) :
    (ks.map (fun d => domainScore rs d)).sum = total_score rs := by
  induction rs with
  | nil => simp [domainScore, total_score]
  | cons a rs ih =>
    have hmem : a.domain ∈ ks := hcov a (List.mem_cons_self a rs)
    have hcov' : ∀ b ∈ rs, b.domain ∈ ks := fun b hb => hcov b (List.mem_cons_of_mem a hb)
    calc (ks.map (fun d => domainScore (a :: rs) d)).sum
        = (ks.map (fun d => (if a.domain = d then a.score else 0) + domainScore rs d)).sum := by
          simp only [domainScore_cons]
      _ = (ks.map (fun d => if a.domain = d then a.score else 0)).sum
            + (ks.map (fun d => domainScore rs d)).sum := sum_map_add_fun ks _ _
      _ = a.score + total_score rs := by
          rw [sum_map_ite_single ks a.domain a.score hnd hmem, ih hcov']
      _ = total_score (a :: rs) := by simp [total_score]

/-- C3: the result is recomputed from the collected answers alone (both
`domain_scores` and `total_score` are functions of `rs`), and the per-domain
sums of `domain_scores` add up exactly to `total_score`. -/
theorem domain_scores_sum_to_total (rs : List Answer) :
    ((domain_scores rs).map Prod.snd).sum = total_score rs := by
  unfold domain_scores
  rw [List.map_map]
  exact grouped_sum _ _ (List.nodup_dedup _)
    (fun a ha => List.mem_dedup.mpr (List.mem_map_of_mem _ ha))

/-- Characterization of a successful advance: the current question exists,
the label is valid, and the new state is the old one with the built Answer
appended and the step incremented. -/
lemma handleNext_ok (st : SessionState) (s : String) (st' : SessionState)
    (h : handleNext st s = (st', none)) :
    ∃ q v, survey_questions[st.step]? = some q ∧ dictLookup q.options s = some v ∧
      st' = { responses := st.responses ++ [⟨q.domain, q.question, s, v⟩],
              step := st.step + 1 } := by
  cases hq : survey_questions[st.step]? with
  | none => simp [handleNext, hq] at h
  | some q =>
    cases hl : dictLookup q.options s with
    | none => simp [handleNext, hq, hl] at h
    | some v =>
      simp only [handleNext, hq, hl] at h
      exact ⟨q, v, rfl, hl, (congrArg Prod.fst h).symm⟩

/-- Unfolding equation of `runSelections` on a cons. -/
lemma runSelections_cons (st : SessionState) (s : String) (rest : List String) :
    runSelections st (s :: rest) =
      match handleNext st s with
      | (st', none) => runSelections st' rest
      | (_, some e) => Except.error e := rfl

/-- A successful run advances the step by the number of selections and
appends exactly the answers `answersFrom` describes. -/
lemma runSelections_ok_char (sels : List String) :
    ∀ st st', runSelections st sels = Except.ok st' →
      st'.step = st.step + sels.length ∧
      st'.responses = st.responses ++ answersFrom st.step sels := by
  induction sels with
  | nil =>
    intro st st' h
    simp [runSelections] at h
    subst h
    simp [answersFrom]
  | cons s rest ih =>
    intro st st' h
    cases hh : handleNext st s with
    | mk st1 e =>
      rw [runSelections_cons, hh] at h
      cases e with
      | some err => simp at h
      | none =>
        simp only [] at h
        obtain ⟨q, v, hq, hl, hst1⟩ := handleNext_ok st s st1 hh
        obtain ⟨ihstep, ihresp⟩ := ih st1 st' h
        subst hst1
        constructor
        · simp at ihstep
          simp [List.length_cons]
          omega
        · rw [ihresp]
          simp [answersFrom, hq, hl, List.append_assoc]

/-- Every question index a successful run visits is in catalog range. -/
lemma runSelections_ok_lt (sels : List String) :
    ∀ st st', runSelections st sels = Except.ok st' →
      ∀ i, i < sels.length → st.step + i < survey_questions.length := by
  induction sels with
  | nil => intro st st' _ i hi; cases hi
  | cons s rest ih =>
    intro st st' h i hi
    cases hh : handleNext st s with
    | mk st1 e =>
      rw [runSelections_cons, hh] at h
      cases e with
      | some err => simp at h
      | none =>
        simp only [] at h
        obtain ⟨q, v, hq, hl, hst1⟩ := handleNext_ok st s st1 hh
        have hlt : st.step < survey_questions.length := by
          by_contra hge
          rw [List.getElem?_eq_none (Nat.le_of_not_lt hge)] at hq
          exact Option.noConfusion hq
        cases i with
        | zero => simpa using hlt
        | succ j =>
          have hj := ih st1 st' h j (by simpa using hi)
          subst hst1
          simp at hj
          omega

/-- A run succeeds when every selection is a valid label of its question. -/
lemma runSelections_progress (sels : List String) :
    ∀ st, (∀ i (h : i < sels.length), validAt (st.step + i) (sels.get ⟨i, h⟩) = true) →
      ∃ st', runSelections st sels = Except.ok st' := by
  induction sels with
  | nil => intro st _; exact ⟨st, rfl⟩
  | cons s rest ih =>
    intro st hv
    have h0 : validAt st.step s = true := hv 0 (by simp)
    unfold validAt at h0
    cases hq : survey_questions[st.step]? with
    | none => rw [hq] at h0; simp at h0
    | some q =>
      rw [hq] at h0
      simp only [] at h0
      cases hl : dictLookup q.options s with
      | none => rw [hl] at h0; simp at h0
      | some v =>
        have hh : handleNext st s =
            ({ responses := st.responses ++ [⟨q.domain, q.question, s, v⟩],
               step := st.step + 1 }, none) := by
          simp [handleNext, hq, hl]
        have hv' : ∀ i (h : i < rest.length),
            validAt (st.step + 1 + i) (rest.get ⟨i, h⟩) = true := by
          intro i h
          have hstep : validAt (st.step + (i + 1)) (rest.get ⟨i, h⟩) = true :=
            hv (i + 1) (by simpa using Nat.succ_lt_succ h)
          have harith : st.step + (i + 1) = st.step + 1 + i := by omega
          rw [harith] at hstep
          exact hstep
        obtain ⟨st', hst'⟩ :=
          ih ⟨st.responses ++ [⟨q.domain, q.question, s, v⟩], st.step + 1⟩
            (fun i h => hv' i h)
        exact ⟨st', by rw [runSelections_cons, hh]; exact hst'⟩

/-- Total score distributes over appending response lists. -/
lemma total_score_append (l1 l2 : List Answer) :
    total_score (l1 ++ l2) = total_score l1 + total_score l2 := by
  simp [total_score]

/-- The answers a run builds score exactly the catalog-paired sum. -/
lemma total_answersFrom (sels : List String) :
    ∀ k, total_score (answersFrom k sels) = chosenSum k sels := by
  induction sels with
  | nil => intro k; simp [answersFrom, chosenSum, total_score]
  | cons s rest ih =>
    intro k
    cases hq : survey_questions[k]? with
    | none =>
      have heq : answersFrom k (s :: rest) = answersFrom (k + 1) rest := by
        simp [answersFrom, hq]
      rw [heq, ih (k + 1)]
      simp [chosenSum, scoreAt, hq]
    | some q =>
      have heq : answersFrom k (s :: rest) =
          ⟨q.domain, q.question, s, (dictLookup q.options s).getD 0⟩ ::
            answersFrom (k + 1) rest := by
        simp [answersFrom, hq]
      rw [heq]
      have hcons : total_score
          (Answer.mk q.domain q.question s ((dictLookup q.options s).getD 0) ::
            answersFrom (k + 1) rest) =
          (dictLookup q.options s).getD 0 + total_score (answersFrom (k + 1) rest) := by
        simp [total_score]
      rw [hcons, ih (k + 1)]
      simp [chosenSum, scoreAt, hq]

/-- In-range runs build exactly one answer per selection. -/
lemma answersFrom_length (sels : List String) :
    ∀ k, (∀ i, i < sels.length → k + i < survey_questions.length) →
      (answersFrom k sels).length = sels.length := by
  induction sels with
  | nil => intro k _; rfl
  | cons s rest ih =>
    intro k hk
    have h0 : k < survey_questions.length := by simpa using hk 0 (by simp)
    have hq : survey_questions[k]? = some survey_questions[k] :=
      List.getElem?_eq_getElem h0
    have hrec := ih (k + 1) (fun i hi => by
      have := hk (i + 1) (by simp only [List.length_cons]; omega)
      omega)
    simp [answersFrom, hq, hrec]

/-- C2: a sequence of valid selections covering all seven questions runs to
completion; the final cursor is 7 and the final `total_score` is the sum of
the scores the catalog pairs with the chosen labels. -/
theorem run_all_selections_total (sels : List String) (hlen : sels.length = 7)
    (hvalid : ∀ i (h : i < sels.length), validAt i (sels.get ⟨i, h⟩) = true) :
    ∃ st', runSelections initialSession sels = Except.ok st' ∧
      st'.step = 7 ∧ total_score st'.responses = chosenSum 0 sels := by
  obtain ⟨st', hok⟩ := runSelections_progress sels initialSession
    (fun i h => by simpa [initialSession] using hvalid i h)
  obtain ⟨hstep, hresp⟩ := runSelections_ok_char sels initialSession st' hok
  simp [initialSession] at hstep hresp
  refine ⟨st', hok, ?_, ?_⟩
  · omega
  · rw [hresp]
    exact total_answersFrom sels 0

/-- Witness for `run_all_selections_total` on the all-first-options run. -/
theorem run_all_selections_total_witness :
    ∃ st', runSelections initialSession demoSelections = Except.ok st' ∧
      st'.step = 7 ∧ total_score st'.responses = chosenSum 0 demoSelections :=
  run_all_selections_total demoSelections (by decide) (by decide)

/-- C4: a successful advance appends exactly one Answer, built from the
current question's domain and prompt, the chosen label and that label's
score, and increments the cursor by exactly one (hence the cursor never
decreases); consequently every state reachable from the initial session
satisfies `len(answers) == cursor` and `0 ≤ cursor ≤ 7`. -/
theorem advance_appends_one_invariant :
    (∀ st s st', handleNext st s = (st', none) →
      st.step ≤ st'.step ∧ st'.step = st.step + 1 ∧
      ∃ q v, survey_questions[st.step]? = some q ∧ dictLookup q.options s = some v ∧
        st'.responses = st.responses ++ [⟨q.domain, q.question, s, v⟩]) ∧
    (∀ sels st, runSelections initialSession sels = Except.ok st →
      st.responses.length = st.step ∧ st.step ≤ 7) := by
  constructor
  · intro st s st' h
    obtain ⟨q, v, hq, hl, hst⟩ := handleNext_ok st s st' h
    subst hst
    exact ⟨Nat.le_succ _, rfl, q, v, hq, hl, rfl⟩
  · intro sels st hok
    obtain ⟨hstep, hresp⟩ := runSelections_ok_char sels initialSession st hok
    have hlt := runSelections_ok_lt sels initialSession st hok
    simp [initialSession] at hstep hresp hlt
    have hlen : (answersFrom 0 sels).length = sels.length :=
      answersFrom_length sels 0 (fun i hi => by simpa using hlt i hi)
    have hsl : survey_questions.length = 7 := rfl
    constructor
    · rw [hresp, hlen, hstep]
    · rcases Nat.eq_zero_or_pos sels.length with hz | hp
      · omega
      · have := hlt (sels.length - 1) (by omega)
        omega

/-- Witness for `advance_appends_one_invariant` at the initial session. -/
theorem advance_appends_one_invariant_witness :
    initialSession.responses.length = initialSession.step ∧ initialSession.step ≤ 7 :=
  advance_appends_one_invariant.2 [] initialSession rfl

/-- C5: selecting a label that is not among the current question's valid
options is rejected: the handler signals `invalidSelection` (the KeyError of
the option-dict lookup) and hands back the session state unchanged — same
`responses`, same `step`. -/
theorem invalid_selection_rejected (st : SessionState) (s : String) (q : Question)
    (hq : survey_questions[st.step]? = some q) (hl : dictLookup q.options s = none) :
    handleNext st s = (st, some SurveyError.invalidSelection) := by
  simp [handleNext, hq, hl]

/-- Witness for `invalid_selection_rejected`: a bogus label at question 0. -/
theorem invalid_selection_rejected_witness :
    handleNext initialSession "Maybe" = (initialSession, some SurveyError.invalidSelection) :=
  invalid_selection_rejected initialSession "Maybe"
    { domain := "Strategy & Leadership",
      question := "Does your organisation have a documented, reviewed data strategy?",
      options :=
        [ ("No strategy at all", 1),
          ("Informal ideas but nothing documented", 2),
          ("A documented strategy exists but isn’t well used", 3),
          ("We have a clear, reviewed data strategy aligned to business goals", 4) ] }
    (by decide) (by decide)

/-- C6 counterexample: with a non-empty name and email but empty industry and
turnover, the follow-up handler still performs both side effects, so the
claim that every empty identity field yields a validation error and no side
effects is false on the code (only name and email are re-checked). -/
theorem workshop_missing_industry_counterexample :
    (request_workshop initialSession "Ada" "ada@example.com" "" "" 7
        "📉 Early Stage" StorageResult.ok 200 "ok").appendedRows =
      [[Cell.str "Ada", Cell.str "ada@example.com", Cell.str "", Cell.str "",
        Cell.int 7, Cell.str "📉 Early Stage"]] ∧
    (request_workshop initialSession "Ada" "ada@example.com" "" "" 7
        "📉 Early Stage" StorageResult.ok 200 "ok").sentMails =
      [⟨"Ada", "ada@example.com", 7, "📉 Early Stage"⟩] := by
  decide

/-- C6 amended: the follow-up action re-validates only the name and the
email; when either of those is empty it reports the validation error message
and performs no side effects — no row append, no notification, no exception
— and leaves the session state unchanged. Industry and turnover are not
re-validated. -/
theorem workshop_empty_name_email_rejected (st : SessionState)
    (name email industry turnover : String) (total : Int) (tier : String)
    (storage : StorageResult) (mailStatus : Nat) (mailText : String)
    (h : name = "" ∨ email = "") :
    request_workshop st name email industry turnover total tier storage mailStatus mailText =
      { state := st,
        messages := [UiMessage.error "Please enter your name and email."],
        appendedRows := [], sentMails := [], uncaught := none } := by
  have hcond : ¬(name ≠ "" ∧ email ≠ "") := by
    rcases h with h | h <;> simp [h]
  unfold request_workshop
  rw [if_neg hcond]

/-- Witness for `workshop_empty_name_email_rejected` at an empty email. -/
theorem workshop_empty_name_email_rejected_witness :
    request_workshop initialSession "Ada" "" "Technology" "< $1M" 7 "📉 Early Stage"
        StorageResult.ok 200 "ok" =
      { state := initialSession,
        messages := [UiMessage.error "Please enter your name and email."],
        appendedRows := [], sentMails := [], uncaught := none } :=
  workshop_empty_name_email_rejected initialSession "Ada" "" "Technology" "< $1M" 7
    "📉 Early Stage" StorageResult.ok 200 "ok" (Or.inr rfl)

/-- C7 counterexample: a storage failure during follow-up propagates out of
the handler as an uncaught exception, and the only message the handler
displayed is the success banner — no warning or error reports the failure —
contradicting "produces a user-observable warning rather than an
unrecoverable fault". -/
theorem storage_failure_counterexample :
    (request_workshop initialSession "Ada" "ada@example.com" "Technology" "< $1M" 7
        "📉 Early Stage" (StorageResult.failure "APIError: quota exceeded") 200
        "ok").uncaught = some "APIError: quota exceeded" ∧
    (request_workshop initialSession "Ada" "ada@example.com" "Technology" "< $1M" 7
        "📉 Early Stage" (StorageResult.failure "APIError: quota exceeded") 200
        "ok").messages =
      [UiMessage.success "✅ Thanks! We\x27ll reach out to you shortly."] := by
  decide

/-- C7 amended: no collaborator failure touches the session's own state —
the handler passes `responses` and `step` (and hence the displayed tier and
total) through unchanged — and no failure is silent: a notification failure
(non-200 status) displays a visible Mailjet error message while the handler
completes normally, whereas a storage failure surfaces as an exception
propagated out of the handler rather than as a warning message. -/
theorem collaborator_failure_not_fatal_to_state (st : SessionState)
    (name email industry turnover : String) (total : Int) (tier : String)
    (mailStatus : Nat) (mailText msg : String)
    (hname : name ≠ "") (hemail : email ≠ "") :
    ((request_workshop st name email industry turnover total tier
        (StorageResult.failure msg) mailStatus mailText).state = st ∧
     (request_workshop st name email industry turnover total tier
        (StorageResult.failure msg) mailStatus mailText).uncaught = some msg) ∧
    (mailStatus ≠ 200 →
     (request_workshop st name email industry turnover total tier
        StorageResult.ok mailStatus mailText).state = st ∧
     (request_workshop st name email industry turnover total tier
        StorageResult.ok mailStatus mailText).uncaught = none ∧
     UiMessage.error ("❌ Mailjet error: " ++ toString mailStatus ++ " - " ++ mailText) ∈
       (request_workshop st name email industry turnover total tier
          StorageResult.ok mailStatus mailText).messages) := by
  constructor
  · simp [request_workshop, hname, hemail]
  · intro hm
    simp [request_workshop, send_mailjet_email, hname, hemail, hm]

/-- Witness for `collaborator_failure_not_fatal_to_state`: a concrete
storage failure and a concrete 500 notification status. -/
theorem collaborator_failure_not_fatal_witness :
    (request_workshop initialSession "Ada" "ada@example.com" "Technology" "< $1M" 7
        "📉 Early Stage" (StorageResult.failure "APIError") 500 "boom").state =
      initialSession ∧
    UiMessage.error ("❌ Mailjet error: " ++ toString (500 : Nat) ++ " - " ++ "boom") ∈
      (request_workshop initialSession "Ada" "ada@example.com" "Technology" "< $1M" 7
        "📉 Early Stage" StorageResult.ok 500 "boom").messages :=
  ⟨(collaborator_failure_not_fatal_to_state initialSession "Ada" "ada@example.com"
      "Technology" "< $1M" 7 "📉 Early Stage" 500 "boom" "APIError"
      (by decide) (by decide)).1.1,
   ((collaborator_failure_not_fatal_to_state initialSession "Ada" "ada@example.com"
      "Technology" "< $1M" 7 "📉 Early Stage" 500 "boom" "APIError"
      (by decide) (by decide)).2 (by decide)).2.2⟩

/-- The prompts of the answers an in-range run builds are the catalog
prompts, in catalog order. -/
lemma answersFrom_questions (sels : List String) :
    ∀ k, (∀ i, i < sels.length → k + i < survey_questions.length) →
      (answersFrom k sels).map (fun r => r.question) =
        ((survey_questions.drop k).take sels.length).map (fun q => q.question) := by
  induction sels with
  | nil => intro k _; simp [answersFrom]
  | cons s rest ih =>
    intro k hk
    have h0 : k < survey_questions.length := by simpa using hk 0 (by simp)
    have hq : survey_questions[k]? = some survey_questions[k] :=
      List.getElem?_eq_getElem h0
    have hdrop : survey_questions.drop k =
        survey_questions[k] :: survey_questions.drop (k + 1) :=
      List.drop_eq_getElem_cons h0
    have hrec := ih (k + 1) (fun i hi => by
      have := hk (i + 1) (by simp only [List.length_cons]; omega)
      omega)
    have hcons : answersFrom k (s :: rest) =
        ⟨survey_questions[k].domain, survey_questions[k].question, s,
          (dictLookup survey_questions[k].options s).getD 0⟩ ::
          answersFrom (k + 1) rest := by
      simp [answersFrom, hq]
    rw [hcons, hdrop]
    simp only [List.length_cons, List.take_succ_cons, List.map_cons]
    rw [hrec]

/-- C8: after a completed run, a follow-up whose storage call succeeds
appends exactly one completion row — identity fields, total score, tier,
then one (prompt, chosen label) pair per answer — and issues exactly one
notification carrying the respondent's name, email, total score and tier;
the prompts in the answers follow catalog order. -/
theorem followup_success_row_and_mail (sels : List String) (st : SessionState)
    (name email industry turnover : String) (mailStatus : Nat) (mailText : String)
    (hrun : runSelections initialSession sels = Except.ok st)
    (hname : name ≠ "") (hemail : email ≠ "") :
    (request_workshop st name email industry turnover (total_score st.responses)
        (classifyTier (total_score st.responses)) StorageResult.ok mailStatus
        mailText).appendedRows =
      [[Cell.str name, Cell.str email, Cell.str industry, Cell.str turnover,
        Cell.int (total_score st.responses),
        Cell.str (classifyTier (total_score st.responses))] ++
        answerCells st.responses] ∧
    (request_workshop st name email industry turnover (total_score st.responses)
        (classifyTier (total_score st.responses)) StorageResult.ok mailStatus
        mailText).sentMails =
      [⟨name, email, total_score st.responses, classifyTier (total_score st.responses)⟩] ∧
    st.responses.map (fun r => r.question) =
      (survey_questions.take st.step).map (fun q => q.question) := by
  obtain ⟨hstep, hresp⟩ := runSelections_ok_char sels initialSession st hrun
  have hlt := runSelections_ok_lt sels initialSession st hrun
  simp [initialSession] at hstep hresp hlt
  refine ⟨?_, ?_, ?_⟩
  · simp [request_workshop, hname, hemail, completionRow]
  · simp [request_workshop, hname, hemail]
  · rw [hresp, hstep]
    have := answersFrom_questions sels 0 (fun i hi => by simpa using hlt i hi)
    simpa using this

/-- Witness for `followup_success_row_and_mail` on the all-first-options run. -/
theorem followup_success_row_and_mail_witness :
    (request_workshop ⟨demoAnswers, 7⟩ "Ada" "ada@example.com" "Technology" "< $1M"
        (total_score demoAnswers) (classifyTier (total_score demoAnswers))
        StorageResult.ok 200 "ok").sentMails =
      [⟨"Ada", "ada@example.com", total_score demoAnswers,
        classifyTier (total_score demoAnswers)⟩] :=
  (followup_success_row_and_mail demoSelections ⟨demoAnswers, 7⟩ "Ada"
    "ada@example.com" "Technology" "< $1M" 200 "ok" rfl
    (by decide) (by decide)).2.1

/-- C9: the start transition fires exactly when all four identity fields are
non-empty and the respondent confirms; when it fires it appends exactly the
partial-intake row `[name, email, industry, turnover, "", ""]`, and when it
does not fire nothing is appended. -/
theorem start_survey_transition (name email industry turnover : String) (confirm : Bool) :
    ((startSurvey name email industry turnover confirm).1 = true ↔
      (name ≠ "" ∧ email ≠ "" ∧ industry ≠ "" ∧ turnover ≠ "" ∧ confirm = true)) ∧
    ((startSurvey name email industry turnover confirm).1 = true →
      (startSurvey name email industry turnover confirm).2.1 =
        [[Cell.str name, Cell.str email, Cell.str industry, Cell.str turnover,
          Cell.str "", Cell.str ""]]) ∧
    ((startSurvey name email industry turnover confirm).1 = false →
      (startSurvey name email industry turnover confirm).2.1 = []) := by
  unfold startSurvey
  split_ifs with h1 h2
  · exact ⟨⟨fun _ => ⟨h1.1, h1.2.1, h1.2.2.1, h1.2.2.2, h2⟩, fun _ => rfl⟩,
           fun _ => rfl, fun h => nomatch h⟩
  · refine ⟨⟨fun h => by simp at h, ?_⟩, fun h => by simp at h, fun _ => rfl⟩
    rintro ⟨-, -, -, -, e⟩
    exact absurd e h2
  · refine ⟨⟨fun h => by simp at h, ?_⟩, fun h => by simp at h, fun _ => rfl⟩
    rintro ⟨a, b, c, d, -⟩
    exact absurd ⟨a, b, c, d⟩ h1

/-- Witness for `start_survey_transition` on a complete identity. -/
theorem start_survey_transition_witness :
    (startSurvey "Ada" "ada@example.com" "Technology" "< $1M" true).2.1 =
      [[Cell.str "Ada", Cell.str "ada@example.com", Cell.str "Technology",
        Cell.str "< $1M", Cell.str "", Cell.str ""]] :=
  (start_survey_transition "Ada" "ada@example.com" "Technology" "< $1M" true).2.1
    ((start_survey_transition "Ada" "ada@example.com" "Technology" "< $1M" true).1.mpr
      ⟨by decide, by decide, by decide, by decide, rfl⟩)
